import Mathlib

/-!
Shallow embedding of `src/src/process/sysdep_DARWIN.c` (monit's Darwin
resource-gathering backend) and verification of the specification claims
about it.

Kernel interactions (sysctl, Mach calls) are modelled as explicit inputs:
a `none` stands for a failed kernel call, a `some v` for a successful call
returning `v`.  Machine integers are modelled as `Nat`/`Int`; all the
quantities involved (tick counters, byte counts, pids) are far below any
overflow boundary in the scenarios the claims quantify over.
-/

namespace SysdepDarwin

/- ------------------------------------------------------------------ -/
/- ArgumentBlobParser: the KERN_PROCARGS2 decoding loop,
   sysdep_DARWIN.c lines 246-271.                                      -/
/- ------------------------------------------------------------------ -/

/-- One byte of the args allocation.  `buf` holds the readable contents of
the `CALLOC`ed buffer; reads beyond it return 0, modelling the zero fill /
terminating sentinel of the allocation (the allocation is one byte larger
than the maximal data size and its tail is never overwritten). -/
def byteAt (buf : List Nat) (i : Nat) : Nat := buf.getD i 0

/-- The NUL-terminated field starting at offset `i`: the bytes scanned by
`strlen(p)` / copied by the `"%s "` append in the C loop. -/
def fieldAt (buf : List Nat) (i : Nat) : List Nat :=
  (buf.drop i).takeWhile (fun b => b ≠ 0)

/-- `strlen` at offset `i` (scan stops at the first NUL, which always
exists thanks to the zero tail of the allocation). -/
def strlenAt (buf : List Nat) (i : Nat) : Nat := (fieldAt buf i).length

/-- `int argc = *args`: the count is read through a `char *`, i.e. a single
(signed) byte. -/
def signedByteInt (b : Nat) : Int := if b < 128 then (b : Int) else (b : Int) - 256

/-- The `while (argc && p < args + args_size)` loop of lines 260-267.
Each appended field is followed by one space byte (the format is always
`"%s "`: `argc` is non-zero whenever the append runs, so the `"%s"` arm of
the conditional expression is dead).

The loop is embedded with a fuel argument for structural recursion; every
iteration strictly increases `p` and requires `p < n`, and the initial `p`
is at least 4, so the initial fuel `n` used by `rawCmdline` is never
exhausted while the guard still holds. -/
def argsLoop (buf : List Nat) (n : Nat) : Nat → Int → Nat → List Nat → List Nat
  | 0, _, _, acc => acc
  | fuel + 1, argc, p, acc =>
      if argc ≠ 0 ∧ p < n then
        if byteAt buf p = 0 then
          argsLoop buf n fuel argc (p + 1) acc
        else
          argsLoop buf n fuel (argc - 1) (p + strlenAt buf p) (acc ++ fieldAt buf p ++ [32])
      else acc

/-- The untrimmed command-line byte string assembled by lines 256-267:
read the leading count byte, skip the NUL-terminated executable name
starting at offset 4, then run the argument loop over the declared
`args_size` bytes. -/
def rawCmdline (buf : List Nat) (n : Nat) : List Nat :=
  argsLoop buf n n (signedByteInt (byteAt buf 0)) (4 + strlenAt buf 4) []

/-- `isspace` bytes trimmed by `StringBuffer_trim`. -/
def isSpaceByte (b : Nat) : Bool :=
  b = 32 || b = 9 || b = 10 || b = 11 || b = 12 || b = 13

/-- `StringBuffer_trim`: strip leading and trailing whitespace. -/
def trimBytes (l : List Nat) : List Nat :=
  ((l.dropWhile isSpaceByte).reverse.dropWhile isSpaceByte).reverse

def bytesToString (l : List Nat) : String := String.mk (l.map Char.ofNat)

/-- The complete argument-blob decoder: blob plus declared length to the
reconstructed, trimmed command-line string. -/
def decodeArgs (buf : List Nat) (n : Nat) : String :=
  bytesToString (trimBytes (rawCmdline buf n))

/- ------------------------------------------------------------------ -/
/- SIP probe and initialization, lines 100-135 and 141-184.            -/
/- ------------------------------------------------------------------ -/

/-- `_isSipEnabled` (lines 100-135).  The privileged task enumeration
(`host_processor_set_priv` followed by `processor_set_tasks`) is modelled
as `Option (List Int)`: `none` when either call fails, otherwise the list
of pids obtained by `pid_for_task` for each enumerated task.  On failure
the function returns the pre-set `true`; otherwise the loop clears the
flag when pid 1 is seen. -/
def _isSipEnabled (tasks : Option (List Int)) : Bool :=
  match tasks with
  | none => true
  | some pids => pids.foldl (fun acc pid => if pid = 1 then false else acc) true

/-- The process-wide state written by `init_process_info_sysdep`
(the static globals `hz`, `pagesize_kbyte`, `isSipEnabled` plus the
`systeminfo` fields set there). -/
structure HostState where
  hz : Nat
  cpus : Nat
  mem_kbyte_max : Nat
  pagesize_kbyte : Nat
  isSipEnabled : Bool
deriving DecidableEq

/-- `init_process_info_sysdep` (lines 141-184): four sysctl scalar queries
in order (clock rate, cpu count, memory size, page size), each failure
fatal; on success the SIP probe result is stored in the process-wide
flag. -/
def init_process_info_sysdep (clockrate ncpu memsize pagesize : Option Nat)
    (tasks : Option (List Int)) : Option HostState :=
  match clockrate with
  | none => none
  | some hz =>
    match ncpu with
    | none => none
    | some cpus =>
      match memsize with
      | none => none
      | some ms =>
        match pagesize with
        | none => none
        | some ps => some ⟨hz, cpus, ms / 1024, ps / 1024, _isSipEnabled tasks⟩

/- ------------------------------------------------------------------ -/
/- ProcessTreeBuilder, lines 192-355.                                  -/
/- ------------------------------------------------------------------ -/

/-- Mach `time_value_t` (seconds, microseconds). -/
structure TimeValue where
  seconds : Nat
  microseconds : Nat
deriving DecidableEq

/-- `task_basic_info` fields read by the code. -/
structure TaskBasicInfo where
  resident_size : Nat
  user_time : TimeValue
  system_time : TimeValue
deriving DecidableEq

/-- `thread_basic_info` fields read by the code. -/
structure ThreadBasicInfo where
  user_time : TimeValue
  system_time : TimeValue
  flags : Nat
deriving DecidableEq

def TH_FLAGS_IDLE : Nat := 2

/-- The CPU-time conversion used at lines 298, 307, 329 and 338:
`(u.seconds + s.seconds) * 10 + (u.microseconds + s.microseconds) / 100000`
(the unit is tenths of a second). -/
def machTimeDeci (u s : TimeValue) : Nat :=
  (u.seconds + s.seconds) * 10 + (u.microseconds + s.microseconds) / 100000

/-- Everything one `task_for_pid` enrichment attempt can observe:
whether `task_for_pid` succeeded, the `task_info` result, and the
`task_threads` result (each thread's `thread_info` may itself fail). -/
structure TaskReading where
  accessOk : Bool
  basicInfo : Option TaskBasicInfo
  threads : Option (List (Option ThreadBasicInfo))
deriving DecidableEq

/-- Fold step of the thread loop (lines 303-312 / 334-343): a successfully
queried thread that is not flagged idle adds its user+system time to the
accumulated cputime. -/
def threadContrib (st : Nat × Nat) (th : Option ThreadBasicInfo) : Nat × Nat :=
  match th with
  | some ti =>
      if ti.flags &&& TH_FLAGS_IDLE = 0 then
        (st.1, st.2 + machTimeDeci ti.user_time ti.system_time)
      else st
  | none => st

/-- One enrichment pass (the body of lines 287-316, identically repeated at
lines 318-347) acting on the current `(mem_kbyte, cputime)` pair:
if `task_for_pid` succeeds, a successful `task_info` assigns both fields,
and a successful `task_threads` accumulates non-idle thread times into
`cputime`. -/
def enrichPass (r : TaskReading) (st : Nat × Nat) : Nat × Nat :=
  if r.accessOk then
    let st1 :=
      match r.basicInfo with
      | some ti => (ti.resident_size / 1024, machTimeDeci ti.user_time ti.system_time)
      | none => st
    match r.threads with
    | some ths => ths.foldl threadContrib st1
    | none => st1
  else st

/-- The `kinfo_proc` fields read at lines 235-240, 272-278. -/
structure KinfoProc where
  p_pid : Int
  e_ppid : Int
  p_ruid : Int
  cr_uid : Int
  p_rgid : Int
  p_starttime : Int
  p_comm : String
  isZombie : Bool
deriving DecidableEq

/-- The per-process kernel observations made inside the loop body:
the KERN_PROCARGS2 result (`none` = sysctl failure, otherwise the readable
buffer contents and the returned `args_size`), and the two `task_for_pid`
enrichment attempts in program order. -/
structure ProcEnv where
  kinfo : KinfoProc
  args : Option (List Nat × Nat)
  pass1 : TaskReading
  pass2 : TaskReading
deriving DecidableEq

/-- The `ProcessTree_T` fields written by `initprocesstree_sysdep`.
(The `time` field — a floating-point wall-clock stamp from
`get_float_time()` — is not modelled; no claim mentions it.) -/
structure ProcessTree_T where
  pid : Int
  ppid : Int
  uid : Int
  euid : Int
  gid : Int
  starttime : Int
  cmdline : String
  zombie : Bool
  mem_kbyte : Nat
  cputime : Nat
  cpu_percent : Nat
deriving DecidableEq

/-- Command-line recovery, lines 246-275: if the args sysctl succeeded and
the assembled (untrimmed) string is non-empty, the trimmed string is
stored; afterwards a missing or empty cmdline falls back to the short
process name `p_comm`. -/
def cmdlineOf (env : ProcEnv) : String :=
  let cmdline0 : Option String :=
    match env.args with
    | some (buf, n) =>
        let raw := rawCmdline buf n
        if raw.length ≠ 0 then some (bytesToString (trimBytes raw)) else none
    | none => none
  match cmdline0 with
  | some s => if s = "" then env.kinfo.p_comm else s
  | none => env.kinfo.p_comm

/-- The loop body of lines 232-348 for one process: identity fields from
the kernel process table, command line recovery, zombie flag, then the
SIP-gated enrichment pass followed by the unconditional enrichment pass.
`mem_kbyte`, `cputime` and `cpu_percent` start at 0 (`CALLOC`). -/
def buildProc (isSipEnabled : Bool) (env : ProcEnv) : ProcessTree_T :=
  let st0 : Nat × Nat := (0, 0)
  let st1 := if isSipEnabled then st0 else enrichPass env.pass1 st0
  let st2 := enrichPass env.pass2 st1
  { pid := env.kinfo.p_pid
    ppid := env.kinfo.e_ppid
    uid := env.kinfo.p_ruid
    euid := env.kinfo.cr_uid
    gid := env.kinfo.p_rgid
    starttime := env.kinfo.p_starttime
    cmdline := cmdlineOf env
    zombie := env.kinfo.isZombie
    mem_kbyte := st2.1
    cputime := st2.2
    cpu_percent := 0 }

/-- `initprocesstree_sysdep` (lines 192-355): the process-table sysctl and
the KERN_ARGMAX sysctl are fatal when they fail (empty tree); otherwise
one record per kernel process-table entry, in enumeration order. -/
def initprocesstree_sysdep (procTable : Option (List ProcEnv))
    (argmax : Option Nat) (isSipEnabled : Bool) : List ProcessTree_T :=
  match procTable, argmax with
  | some envs, some _ => envs.map (buildProc isSipEnabled)
  | _, _ => []

/- ------------------------------------------------------------------ -/
/- SystemResourceSampler: memory (lines 374-398), CPU (lines 405-429). -/
/- ------------------------------------------------------------------ -/

/-- The `SystemInfo_T` fields touched by `used_system_memory_sysdep`. -/
structure SystemInfo where
  total_mem_kbyte : Nat
  swap_kbyte_max : Nat
  total_swap_kbyte : Nat
deriving DecidableEq

/-- `vm_statistics` fields read by the code. -/
structure VmPages where
  wire_count : Nat
  active_count : Nat
deriving DecidableEq

/-- `xsw_usage` fields read by the code (bytes). -/
structure SwapUsage where
  xsu_total : Nat
  xsu_used : Nat
deriving DecidableEq

/-- `used_system_memory_sysdep` (lines 374-398).  `mem` models the
`host_statistics(HOST_VM_INFO)` call, `swap` the `VM_SWAPUSAGE` sysctl.
Memory failure: return false, nothing written.  Memory success writes
`total_mem_kbyte`; then swap failure zeroes `swap_kbyte_max` only and
returns false; swap success writes both swap fields and returns true. -/
def used_system_memory_sysdep (pagesize_kbyte : Nat) (si : SystemInfo)
    (mem : Option VmPages) (swap : Option SwapUsage) : Bool × SystemInfo :=
  match mem with
  | none => (false, si)
  | some pg =>
    let si1 := { si with total_mem_kbyte := (pg.wire_count + pg.active_count) * pagesize_kbyte }
    match swap with
    | none => (false, { si1 with swap_kbyte_max := 0 })
    | some sw =>
        (true, { si1 with swap_kbyte_max := sw.xsu_total / 1024,
                          total_swap_kbyte := sw.xsu_used / 1024 })

/-- The per-state cumulative tick counters of `host_cpu_load_info`
(CPU_STATE_USER, CPU_STATE_SYSTEM, CPU_STATE_IDLE, CPU_STATE_NICE). -/
structure CpuTicks where
  user : Nat
  syst : Nat
  idle : Nat
  nice : Nat
deriving DecidableEq

/-- The static accumulators `total_old`, `cpu_user_old`, `cpu_syst_old`
(initialized to 0 at program start). -/
structure CpuState where
  total_old : Int
  cpu_user_old : Int
  cpu_syst_old : Int
deriving DecidableEq

/-- The three percentage fields written into `SystemInfo_T` by
`used_system_cpu_sysdep` (per-mille values; -10 is the sentinel). -/
structure CpuPercents where
  user : Int
  syst : Int
  wait : Int
deriving DecidableEq

/-- `used_system_cpu_sysdep` (lines 405-429).  `reading` models the
`host_statistics(HOST_CPU_LOAD_INFO)` call.  On failure the function
returns false immediately (`none` output) and the accumulators are left
untouched.  On success: sum all states, use `total = total_new - total_old`
as the interval; when the interval is positive the per-mille percentages
are `1000 * stateDelta / total` truncated toward zero (the C computes in
double and casts to int), otherwise the sentinel -10; the accumulators are
then set to the raw new readings. -/
def used_system_cpu_sysdep (st : CpuState) (reading : Option CpuTicks) :
    Option CpuPercents × CpuState :=
  match reading with
  | none => (none, st)
  | some c =>
      let total_new : Int := (c.user : Int) + (c.syst : Int) + (c.idle : Int) + (c.nice : Int)
      let total : Int := total_new - st.total_old
      let userPct : Int :=
        if 0 < total then (1000 * ((c.user : Int) - st.cpu_user_old)).tdiv total else -10
      let systPct : Int :=
        if 0 < total then (1000 * ((c.syst : Int) - st.cpu_syst_old)).tdiv total else -10
      (some ⟨userPct, systPct, 0⟩, ⟨total_new, (c.user : Int), (c.syst : Int)⟩)

/-- Rendering of the spec's claimed unit for `cputime` ("hundredths of a
second"): user+system time of a `time_value_t` pair in centiseconds.
Used only to state claim C3 the way it is written; the code uses
`machTimeDeci`. -/
def machTimeCenti (u s : TimeValue) : Nat :=
  (u.seconds + s.seconds) * 100 + (u.microseconds + s.microseconds) / 10000

/-- Sum of the user+system times (code unit, tenths of a second) of the
successfully queried threads that are not flagged idle. -/
def nonIdleThreadDeci : List (Option ThreadBasicInfo) → Nat
  | [] => 0
  | some ti :: t =>
      (if ti.flags &&& TH_FLAGS_IDLE = 0 then
        machTimeDeci ti.user_time ti.system_time else 0) + nonIdleThreadDeci t
  | none :: t => nonIdleThreadDeci t

/- ------------------------------------------------------------------ -/
/- Helper lemmas                                                       -/
/- ------------------------------------------------------------------ -/

lemma enrichPass_noAccess {r : TaskReading} (h : r.accessOk = false) (st : Nat × Nat) :
    enrichPass r st = st := by
  simp [enrichPass, h]

lemma enrichPass_overwrite {r : TaskReading} {ti : TaskBasicInfo}
    (ha : r.accessOk = true) (hi : r.basicInfo = some ti) (st st2 : Nat × Nat) :
    enrichPass r st = enrichPass r st2 := by
  simp [enrichPass, ha, hi]

lemma foldl_threadContrib (ths : List (Option ThreadBasicInfo)) (st : Nat × Nat) :
    ths.foldl threadContrib st = (st.1, st.2 + nonIdleThreadDeci ths) := by
  induction ths generalizing st with
  | nil => simp [nonIdleThreadDeci]
  | cons th t ih =>
    cases th with
    | none => simp [List.foldl_cons, threadContrib, ih, nonIdleThreadDeci]
    | some ti =>
      by_cases hid : ti.flags &&& TH_FLAGS_IDLE = 0
      · simp [List.foldl_cons, threadContrib, hid, ih, nonIdleThreadDeci, Nat.add_assoc]
      · simp [List.foldl_cons, threadContrib, hid, ih, nonIdleThreadDeci]

lemma byteAt_lt {buf : List Nat} {i : Nat} (h : i < buf.length) : byteAt buf i = buf[i] := by
  rw [byteAt, List.getD_eq_getElem?_getD, List.getElem?_eq_getElem h]
  rfl

lemma byteAt_ge {buf : List Nat} {i : Nat} (h : buf.length ≤ i) : byteAt buf i = 0 :=
  List.getD_eq_default buf 0 h

lemma byteAt_take (buf : List Nat) {n i : Nat} (hi : i < n) :
    byteAt (buf.take n) i = byteAt buf i := by
  simp [byteAt, List.getD_eq_getElem?_getD, List.getElem?_take, hi]

lemma byteAt_congr {buf buf2 : List Nat} {n : Nat} (h : buf.take n = buf2.take n)
    {i : Nat} (hi : i < n) : byteAt buf i = byteAt buf2 i := by
  rw [← byteAt_take buf hi, h, byteAt_take buf2 hi]

lemma fieldAt_eq_nil {buf : List Nat} {i : Nat} (h : byteAt buf i = 0) :
    fieldAt buf i = [] := by
  rcases Nat.lt_or_ge i buf.length with hlt | hge
  · unfold fieldAt
    rw [List.drop_eq_getElem_cons hlt, List.takeWhile_cons]
    rw [byteAt_lt hlt] at h
    simp [h]
  · unfold fieldAt
    rw [List.drop_eq_nil_of_le hge]
    rfl

lemma fieldAt_eq_cons {buf : List Nat} {i : Nat} (h : byteAt buf i ≠ 0) :
    fieldAt buf i = byteAt buf i :: fieldAt buf (i + 1) := by
  have hlt : i < buf.length := by
    by_contra hge
    exact h (byteAt_ge (Nat.le_of_not_lt hge))
  unfold fieldAt
  rw [List.drop_eq_getElem_cons hlt, List.takeWhile_cons]
  rw [byteAt_lt hlt] at h ⊢
  simp [h]

lemma fieldAt_congr_aux {buf buf2 : List Nat} {n : Nat}
    (h0 : byteAt buf (n - 1) = 0) (h : buf.take n = buf2.take n) :
    ∀ d i, n - i = d → i < n → fieldAt buf i = fieldAt buf2 i := by
  intro d
  induction d with
  | zero =>
    intro i hd hi
    omega
  | succ d ih =>
    intro i hd hi
    have hb := byteAt_congr h hi
    by_cases hz : byteAt buf i = 0
    · rw [fieldAt_eq_nil hz, fieldAt_eq_nil (hb.symm.trans hz)]
    · have hz2 : byteAt buf2 i ≠ 0 := fun e => hz (hb.trans e)
      have hin : i ≠ n - 1 := fun e => hz (by rw [e]; exact h0)
      rw [fieldAt_eq_cons hz, fieldAt_eq_cons hz2, hb,
        ih (i + 1) (by omega) (by omega)]

lemma fieldAt_congr {buf buf2 : List Nat} {n : Nat}
    (h0 : byteAt buf (n - 1) = 0) (h : buf.take n = buf2.take n)
    {i : Nat} (hi : i < n) : fieldAt buf i = fieldAt buf2 i :=
  fieldAt_congr_aux h0 h (n - i) i rfl hi

lemma argsLoop_congr {buf buf2 : List Nat} {n : Nat}
    (h0 : byteAt buf (n - 1) = 0) (h : buf.take n = buf2.take n) :
    ∀ (fuel : Nat) (argc : Int) (p : Nat) (acc : List Nat),
      argsLoop buf n fuel argc p acc = argsLoop buf2 n fuel argc p acc := by
  intro fuel
  induction fuel with
  | zero => intro argc p acc; rfl
  | succ f ih =>
    intro argc p acc
    simp only [argsLoop]
    by_cases hg : argc ≠ 0 ∧ p < n
    · rw [if_pos hg, if_pos hg]
      have hbp := byteAt_congr h hg.2
      by_cases hz : byteAt buf p = 0
      · rw [if_pos hz, if_pos (hbp.symm.trans hz)]
        exact ih argc (p + 1) acc
      · have hz2 : byteAt buf2 p ≠ 0 := fun e => hz (hbp.trans e)
        have hf : fieldAt buf p = fieldAt buf2 p := fieldAt_congr h0 h hg.2
        rw [if_neg hz, if_neg hz2,
          show strlenAt buf p = strlenAt buf2 p from congrArg List.length hf, hf]
        exact ih _ _ _
    · rw [if_neg hg, if_neg hg]

lemma enrichPass_success {r : TaskReading} {ti : TaskBasicInfo}
    {ths : List (Option ThreadBasicInfo)}
    (ha : r.accessOk = true) (hi : r.basicInfo = some ti) (ht : r.threads = some ths)
    (st : Nat × Nat) :
    enrichPass r st = (ti.resident_size / 1024,
      machTimeDeci ti.user_time ti.system_time + nonIdleThreadDeci ths) := by
  simp [enrichPass, ha, hi, ht, foldl_threadContrib]

lemma sip_foldl (l : List Int) (acc : Bool) :
    l.foldl (fun a pid => if pid = 1 then false else a) acc = (acc && decide (1 ∉ l)) := by
  induction l generalizing acc with
  | nil => simp
  | cons x t ih =>
    simp only [List.foldl_cons]
    by_cases hx : x = 1
    · rw [if_pos hx, ih]
      subst hx
      simp [List.mem_cons]
    · rw [if_neg hx, ih]
      have h1 : (1 : Int) ≠ x := fun h => hx h.symm
      simp [List.mem_cons, h1]

/- ------------------------------------------------------------------ -/
/- Claims                                                              -/
/- ------------------------------------------------------------------ -/

/-- Claim C2, counterexample: on the very first invocation of the CPU
sampler (all accumulators still 0) with a successful read of nonzero tick
counters, the sampler reports computed percentages (here 666 and 333 per
mille), not the "not computable" sentinel -10 — the interval
`total_new - 0` is positive, so the sentinel branch is not taken. -/
theorem C2_counterexample :
    ¬ (∀ c : CpuTicks,
        (used_system_cpu_sysdep ⟨0, 0, 0⟩ (some c)).1 = some ⟨-10, -10, 0⟩) := by
  intro h
  exact absurd (h ⟨100, 50, 0, 0⟩) (by decide)

/-- Claim C2 (amended): on the first invocation after process start (the
previous-total accumulator still at its initial value 0), the computed
interval equals the raw since-boot tick sum; the sampler reports computed
percentages whenever that sum is positive, and the sentinel -10 exactly
when it is not. -/
theorem C2_theorem (c : CpuTicks) :
    (used_system_cpu_sysdep ⟨0, 0, 0⟩ (some c)).1 =
      some (if 0 < (c.user : Int) + (c.syst : Int) + (c.idle : Int) + (c.nice : Int) then
              ⟨(1000 * (c.user : Int)).tdiv
                 ((c.user : Int) + (c.syst : Int) + (c.idle : Int) + (c.nice : Int)),
               (1000 * (c.syst : Int)).tdiv
                 ((c.user : Int) + (c.syst : Int) + (c.idle : Int) + (c.nice : Int)),
               0⟩
            else ⟨-10, -10, 0⟩) := by
  by_cases h : 0 < (c.user : Int) + (c.syst : Int) + (c.idle : Int) + (c.nice : Int) <;>
    simp [used_system_cpu_sysdep, h]

/-- Claim C4, counterexample: the accumulator state left behind by a call
is not determined by that call's reading alone — when the kernel tick read
fails the function returns early and the accumulators keep their previous
values (calls from states ⟨0,0,0⟩ and ⟨5,3,2⟩ with a failed read end in
different states), contradicting "updated to the newly read raw tick
values after every invocation, whether success or failure". -/
theorem C4_counterexample :
    ¬ (∀ (st1 st2 : CpuState) (r : Option CpuTicks),
        (used_system_cpu_sysdep st1 r).2 = (used_system_cpu_sysdep st2 r).2) := by
  intro h
  exact absurd (h ⟨0, 0, 0⟩ ⟨5, 3, 2⟩ none) (by decide)

/-- Claim C4 (amended): on every invocation in which the kernel tick read
succeeds — whether the percentages are computed or the sentinel is
reported — all three accumulators are updated to the newly read raw tick
values; when the read fails the function returns failure and leaves the
accumulators unchanged. -/
theorem C4_theorem (st : CpuState) (r : Option CpuTicks) :
    (used_system_cpu_sysdep st r).2 =
      match r with
      | none => st
      | some c => ⟨(c.user : Int) + (c.syst : Int) + (c.idle : Int) + (c.nice : Int),
                   (c.user : Int), (c.syst : Int)⟩ := by
  cases r <;> rfl

/-- Claim C5, counterexample: when the memory query succeeds and the swap
query fails, the swap-used field `total_swap_kbyte` is NOT zeroed (it
keeps its previous value, here 7); only `swap_kbyte_max` is zeroed, so
"both swap output fields are zeroed" is false. -/
theorem C5_counterexample :
    (used_system_memory_sysdep 4 ⟨0, 4, 7⟩ (some ⟨1, 1⟩) none).1 = false ∧
    (used_system_memory_sysdep 4 ⟨0, 4, 7⟩ (some ⟨1, 1⟩) none).2.total_swap_kbyte ≠ 0 := by
  decide

/-- Claim C5 (amended): when the memory query succeeds but the swap query
fails, the sampler returns failure, the freshly written memory field is
left at its new value, the swap-total field `swap_kbyte_max` is zeroed,
and the swap-used field `total_swap_kbyte` is left unchanged. -/
theorem C5_theorem (pk : Nat) (si : SystemInfo) (pg : VmPages) :
    used_system_memory_sysdep pk si (some pg) none =
      (false, ⟨(pg.wire_count + pg.active_count) * pk, 0, si.total_swap_kbyte⟩) := rfl

/-- Claim C6: the restriction probe returns "restricted" (true) whenever
the privileged task enumeration fails, otherwise "unrestricted" (false)
exactly when pid 1 appears in the enumerated task list; and successful
initialization stores the probe result in the process-wide flag. -/
theorem C6_theorem :
    (_isSipEnabled none = true) ∧
    (∀ pids : List Int, _isSipEnabled (some pids) = false ↔ 1 ∈ pids) ∧
    (∀ (hz cpus ms ps : Nat) (t : Option (List Int)),
        init_process_info_sysdep (some hz) (some cpus) (some ms) (some ps) t =
          some ⟨hz, cpus, ms / 1024, ps / 1024, _isSipEnabled t⟩) := by
  refine ⟨rfl, ?_, fun _ _ _ _ _ => rfl⟩
  intro pids
  show (pids.foldl (fun acc pid => if pid = 1 then false else acc) true) = false ↔ 1 ∈ pids
  rw [sip_foldl]
  simp

/-- Claim C1, counterexample: with the restriction flag set, the
unconditional second enrichment pass still runs; for a process whose task
access succeeds the snapshot record carries nonzero resident memory
(2 KiB) and CPU time (10), so "mem_kbyte = 0 and cputime = 0 for every
process" fails under restriction. -/
theorem C1_counterexample :
    ¬ (∀ p ∈ initprocesstree_sysdep
          (some [⟨⟨10, 1, 0, 0, 0, 0, "ls", false⟩, none, ⟨false, none, none⟩,
                  ⟨true, some ⟨2048, ⟨1, 0⟩, ⟨0, 0⟩⟩, some []⟩⟩])
          (some 4096) true,
        p.mem_kbyte = 0 ∧ p.cputime = 0) := by
  decide

/-- Claim C1 (amended): when the restriction flag is set the gated first
enrichment pass is skipped, but the unconditional second pass still
attempts task access; the resident-memory and CPU-time fields of every
snapshot record are 0 whenever that second task access fails for every
process (which is what the restriction is expected to cause). -/
theorem C1_theorem (envs : List ProcEnv) (m : Nat)
    (hfail : ∀ e ∈ envs, e.pass2.accessOk = false) :
    ∀ p ∈ initprocesstree_sysdep (some envs) (some m) true,
      p.mem_kbyte = 0 ∧ p.cputime = 0 := by
  intro p hp
  simp only [initprocesstree_sysdep, List.mem_map] at hp
  obtain ⟨e, he, rfl⟩ := hp
  have h2 := hfail e he
  simp [buildProc, enrichPass_noAccess h2]

/-- Claim C1 witness: a concrete restricted snapshot in which the
second-pass task access fails; its record carries zero memory and CPU
time. -/
theorem C1_witness :
    (buildProc true ⟨⟨7, 1, 0, 0, 0, 0, "x", false⟩, none, ⟨false, none, none⟩,
        ⟨false, none, none⟩⟩).mem_kbyte = 0 ∧
    (buildProc true ⟨⟨7, 1, 0, 0, 0, 0, "x", false⟩, none, ⟨false, none, none⟩,
        ⟨false, none, none⟩⟩).cputime = 0 :=
  C1_theorem
    [⟨⟨7, 1, 0, 0, 0, 0, "x", false⟩, none, ⟨false, none, none⟩, ⟨false, none, none⟩⟩]
    1 (by decide) _ (by decide)

/-- Claim C3, counterexample: a process whose task reports exactly 1
second of user time and no threads gets `cputime = 10`, while the claimed
centisecond unit requires 100 — the code's unit is tenths of a second
(`* 10`, `/ 100000`), not hundredths. -/
theorem C3_counterexample :
    (buildProc false ⟨⟨3, 1, 0, 0, 0, 0, "a", false⟩, none, ⟨false, none, none⟩,
        ⟨true, some ⟨0, ⟨1, 0⟩, ⟨0, 0⟩⟩, some []⟩⟩).cputime = 10 ∧
    machTimeCenti ⟨1, 0⟩ ⟨0, 0⟩ = 100 ∧
    (10 : Nat) ≠ 100 := by
  decide

/-- Claim C3 (amended): for every process whose second-pass task access,
task-level query and thread enumeration succeed, the CPU-time field is
reported in tenths of a second (seconds * 10 + microseconds / 100000,
integer division) and equals the task's own user+system time plus the
summed user+system time of each successfully queried thread that is not
flagged idle. -/
theorem C3_theorem (sip : Bool) (env : ProcEnv) (ti : TaskBasicInfo)
    (ths : List (Option ThreadBasicInfo))
    (ha : env.pass2.accessOk = true) (hi : env.pass2.basicInfo = some ti)
    (ht : env.pass2.threads = some ths) :
    (buildProc sip env).cputime =
      machTimeDeci ti.user_time ti.system_time + nonIdleThreadDeci ths := by
  simp [buildProc, enrichPass_success ha hi ht]

/-- Claim C3 witness: concrete process with 1.5s+2.6s of task time, one
non-idle thread (0.3s), one idle thread and one failed thread query. -/
theorem C3_witness :
    (buildProc false ⟨⟨3, 1, 0, 0, 0, 0, "a", false⟩, none, ⟨false, none, none⟩,
        ⟨true, some ⟨2048, ⟨1, 500000⟩, ⟨2, 600000⟩⟩,
         some [some ⟨⟨0, 300000⟩, ⟨0, 0⟩, 0⟩, some ⟨⟨5, 0⟩, ⟨0, 0⟩, 2⟩, none]⟩⟩).cputime =
      machTimeDeci ⟨1, 500000⟩ ⟨2, 600000⟩ +
        nonIdleThreadDeci [some ⟨⟨0, 300000⟩, ⟨0, 0⟩, 0⟩, some ⟨⟨5, 0⟩, ⟨0, 0⟩, 2⟩, none] :=
  C3_theorem false _ _ _ rfl rfl rfl

/-- Claim C9: a process whose argument query fails, or whose decoded
argument string is empty, gets its short kernel process name as
`cmdline`; and the `cmdline` of a produced record is never the empty
string when the short name is non-empty. -/
theorem C9_theorem (sip : Bool) (env : ProcEnv) :
    (env.args = none → (buildProc sip env).cmdline = env.kinfo.p_comm) ∧
    (∀ buf n, env.args = some (buf, n) → decodeArgs buf n = "" →
        (buildProc sip env).cmdline = env.kinfo.p_comm) ∧
    (env.kinfo.p_comm ≠ "" → (buildProc sip env).cmdline ≠ "") := by
  have hb : (buildProc sip env).cmdline = cmdlineOf env := rfl
  refine ⟨?_, ?_, ?_⟩
  · intro h
    rw [hb]
    simp [cmdlineOf, h]
  · intro buf n h hdec
    rw [hb]
    have hs : bytesToString (trimBytes (rawCmdline buf n)) = "" := hdec
    by_cases hr : (rawCmdline buf n).length ≠ 0
    · simp [cmdlineOf, h, hr, hs]
    · simp [cmdlineOf, h, hr]
  · intro hc
    rw [hb]
    unfold cmdlineOf
    cases ha : env.args with
    | none => simpa using hc
    | some bn =>
      obtain ⟨buf, n⟩ := bn
      by_cases hr : (rawCmdline buf n).length ≠ 0
      · by_cases hs : bytesToString (trimBytes (rawCmdline buf n)) = ""
        · simp [hr, hs, hc]
        · simp [hr, hs]
      · simp [hr, hc]

/-- Claim C9 witness: a process with a failed argument query and short
name "sh" gets cmdline "sh", which is non-empty. -/
theorem C9_witness :
    (buildProc true ⟨⟨9, 1, 0, 0, 0, 0, "sh", false⟩, none, ⟨false, none, none⟩,
        ⟨false, none, none⟩⟩).cmdline = "sh" ∧
    (buildProc true ⟨⟨9, 1, 0, 0, 0, 0, "sh", false⟩, none, ⟨false, none, none⟩,
        ⟨false, none, none⟩⟩).cmdline ≠ "" :=
  ⟨(C9_theorem true _).1 rfl, (C9_theorem true _).2.2 (by decide)⟩

/-- Claim C10: the unconditional second enrichment pass assigns rather
than accumulates: whenever its task access and its task-level query both
succeed, the final memory and CPU-time fields equal those produced by
that single pass alone starting from zeroed fields — whether the
restriction-gated first pass ran, and what it wrote, is unobservable in
the output. -/
theorem C10_theorem (sip : Bool) (env : ProcEnv) (ti : TaskBasicInfo)
    (ha : env.pass2.accessOk = true) (hi : env.pass2.basicInfo = some ti) :
    (buildProc sip env).mem_kbyte = (enrichPass env.pass2 (0, 0)).1 ∧
    (buildProc sip env).cputime = (enrichPass env.pass2 (0, 0)).2 := by
  have key : ∀ st : Nat × Nat, enrichPass env.pass2 st = enrichPass env.pass2 (0, 0) :=
    fun st => enrichPass_overwrite ha hi st (0, 0)
  constructor <;> simp [buildProc, key]

/-- Claim C10 witness: a process whose gated first pass wrote junk values
and whose second pass succeeds; the final fields equal the single
second-pass result. -/
theorem C10_witness :
    (buildProc false ⟨⟨4, 1, 0, 0, 0, 0, "w", false⟩, none,
        ⟨true, some ⟨999424, ⟨9, 0⟩, ⟨9, 0⟩⟩, none⟩,
        ⟨true, some ⟨1024, ⟨1, 0⟩, ⟨0, 0⟩⟩, some []⟩⟩).mem_kbyte =
      (enrichPass ⟨true, some ⟨1024, ⟨1, 0⟩, ⟨0, 0⟩⟩, some []⟩ (0, 0)).1 ∧
    (buildProc false ⟨⟨4, 1, 0, 0, 0, 0, "w", false⟩, none,
        ⟨true, some ⟨999424, ⟨9, 0⟩, ⟨9, 0⟩⟩, none⟩,
        ⟨true, some ⟨1024, ⟨1, 0⟩, ⟨0, 0⟩⟩, some []⟩⟩).cputime =
      (enrichPass ⟨true, some ⟨1024, ⟨1, 0⟩, ⟨0, 0⟩⟩, some []⟩ (0, 0)).2 :=
  C10_theorem false _ _ rfl rfl

/-- Claim C7, counterexample: the buffers `[1,0,0,0,47,0,65]` and
`[1,0,0,0,47,0,65,66]` agree on all 7 declared bytes, yet decode to
different strings ("A" vs "AB"): when a field that starts inside the
declared region is not NUL-terminated within it, the `strlen`-driven
field read proceeds past the declared buffer length into whatever bytes
follow in the reused allocation, so for malformed input the decoder is
neither a function of the declared input alone nor bounded by the
declared length. -/
theorem C7_counterexample :
    [1, 0, 0, 0, 47, 0, 65].take 7 = [1, 0, 0, 0, 47, 0, 65, 66].take 7 ∧
    decodeArgs [1, 0, 0, 0, 47, 0, 65] 7 ≠ decodeArgs [1, 0, 0, 0, 47, 0, 65, 66] 7 := by
  decide

/-- Claim C7 (amended): the decoder is a pure total function of the
underlying allocation contents and never fails; its reads stay within the
declared buffer length — so its result depends only on the first
`args_size` bytes — provided the declared region is long enough to hold
the count field (`4 < n`) and its last byte is a NUL terminator (as in
every well-formed kernel blob); without that proviso reads may continue
past the declared length up to the next NUL in the allocation. -/
theorem C7_theorem (buf buf2 : List Nat) (n : Nat) (h4 : 4 < n)
    (h0 : byteAt buf (n - 1) = 0) (h : buf.take n = buf2.take n) :
    decodeArgs buf n = decodeArgs buf2 n := by
  unfold decodeArgs rawCmdline
  have hb0 : byteAt buf 0 = byteAt buf2 0 := byteAt_congr h (by omega)
  have hf4 : fieldAt buf 4 = fieldAt buf2 4 := fieldAt_congr h0 h (by omega)
  rw [hb0, show strlenAt buf 4 = strlenAt buf2 4 from congrArg List.length hf4,
    argsLoop_congr h0 h n _ _ _]

/-- Claim C7 witness: two buffers agreeing on a NUL-terminated declared
region of 6 bytes decode identically, even though one carries an extra
stale byte beyond the declared length. -/
theorem C7_witness :
    decodeArgs [1, 0, 0, 0, 65, 0] 6 = decodeArgs [1, 0, 0, 0, 65, 0, 77] 6 :=
  C7_theorem _ _ 6 (by decide) (by decide) (by decide)

/-- Claim C8: decoding the blob
`"\x02\x00\x00\x00/bin/ls\0\0\0-l\0--color\0"` (25 declared bytes,
argument count 2) yields `"-l --color"`: the executable path is skipped,
padding NULs are skipped, arguments are joined by single spaces and the
result is trimmed. -/
theorem C8_theorem :
    decodeArgs ([2, 0, 0, 0] ++ [47, 98, 105, 110, 47, 108, 115, 0, 0, 0] ++
      [45, 108, 0] ++ [45, 45, 99, 111, 108, 111, 114, 0]) 25 = "-l --color" := by
  decide

end SysdepDarwin
